import Mathlib

/-!
Shallow embedding of the twty command-line client (twty.go) and proofs
about its option builders, configuration loading, authorization cache and
output formatter.

Go maps from string to string are embedded as functions `String → Option
String`; a map write `m[k] = v` is `mapInsert m k v`.  The relevant Go
standard-library helpers (`strings.Split` on `"-"`, `strconv.Atoi`,
`strings.NewReplacer("\r","","\n"," ","\t"," ")`) are modelled as concrete
executable functions below; `html.UnescapeString`, `time.Parse`,
`Time.Local().Format` and `json.Encoder.Encode` are external interfaces and
are passed in as function parameters where a source function calls them.
-/

namespace Twty

/-- A Go `map[string]string`, embedded as a lookup function. -/
def StrMap : Type := String → Option String

/-- The empty map (`map[string]string{}`). -/
def emptyMap : StrMap := fun _ => none

/-- A Go map write `m[k] = v`. -/
def mapInsert (m : StrMap) (k v : String) : StrMap :=
  fun q => if q = k then some v else m q

theorem mapInsert_self (m : StrMap) (k v : String) : mapInsert m k v k = some v := by
  simp [mapInsert]

theorem mapInsert_other (m : StrMap) (k v q : String) (h : q ≠ k) :
    mapInsert m k v q = m q := by
  simp [mapInsert, h]

/-- Model of Go `strings.Split(s, "-")` on the character list: splits around
every occurrence of the hyphen; the empty list yields one empty piece. -/
def splitDashList : List Char → List (List Char)
  | [] => [[]]
  | c :: rest =>
    if c = '-' then [] :: splitDashList rest
    else
      match splitDashList rest with
      | [] => [[c]]
      | p :: ps => (c :: p) :: ps

/-- Model of Go `strings.Split(s, "-")`. -/
def splitDash (s : String) : List String :=
  (splitDashList s.data).map (fun l => String.mk l)

/-- Decimal value of a digit list (used to model `strconv.Atoi` overflow). -/
def digitsVal (l : List Char) : Nat :=
  l.foldl (fun a c => a * 10 + (c.toNat - 48)) 0

/-- Model of Go `strconv.Atoi(s)` succeeding: an optional single `+`/`-`
sign followed by one or more ASCII digits whose value fits in a 64-bit
signed integer (Go `int` on a 64-bit platform). -/
def atoiOk (s : String) : Bool :=
  match s.data with
  | [] => false
  | c :: rest =>
    let ds := if c = '+' ∨ c = '-' then rest else c :: rest
    !ds.isEmpty && ds.all Char.isDigit &&
      (if c = '-' then decide (digitsVal ds ≤ 2 ^ 63) else decide (digitsVal ds < 2 ^ 63))

/-- twty.go `isTimeFormat`: true when splitting on `-` yields exactly three
pieces, each accepted by `strconv.Atoi`. -/
def isTimeFormat (t : String) : Bool :=
  let splitFormat := splitDash t
  if splitFormat.length ≠ 3 then false
  else splitFormat.all atoiOk

/-- twty.go `countToOpt`: writes `count` only for a non-empty string that
`strconv.Atoi` accepts. -/
def countToOpt (opt : StrMap) (c : String) : StrMap :=
  if c ≠ "" then
    (if atoiOk c then mapInsert opt "count" c else opt)
  else opt

/-- twty.go `timeFormatToOpt`: returns the map unchanged when the input is
non-empty OR fails `isTimeFormat`; otherwise writes the key. -/
def timeFormatToOpt (opt : StrMap) (key timeFormat : String) : StrMap :=
  if timeFormat ≠ "" ∨ isTimeFormat timeFormat = false then opt
  else mapInsert opt key timeFormat

/-- twty.go `sinceToOpt`. -/
def sinceToOpt (opt : StrMap) (timeFormat : String) : StrMap :=
  timeFormatToOpt opt "since" timeFormat

/-- twty.go `untilToOpt`. -/
def untilToOpt (opt : StrMap) (timeFormat : String) : StrMap :=
  timeFormatToOpt opt "until" timeFormat

/-- twty.go `idToOpt`: ids below 1 leave the map unchanged, otherwise the
key is set to the decimal rendering (`strconv.FormatInt(id, 10)`). -/
def idToOpt (opt : StrMap) (key : String) (id : Int) : StrMap :=
  if id < 1 then opt else mapInsert opt key (toString id)

/-- twty.go `sinceIDtoOpt`. -/
def sinceIDtoOpt (opt : StrMap) (id : Int) : StrMap :=
  idToOpt opt "since_id" id

/-- twty.go `maxIDtoOpt`. -/
def maxIDtoOpt (opt : StrMap) (id : Int) : StrMap :=
  idToOpt opt "max_id" id

theorem isTimeFormat_empty : isTimeFormat "" = false := rfl

/-- `timeFormatToOpt` is the identity on the map, whatever the input: an
empty input fails `isTimeFormat` and a non-empty input trips the first
disjunct of the guard. -/
theorem timeFormatToOpt_eq_self (opt : StrMap) (key s : String) :
    timeFormatToOpt opt key s = opt := by
  unfold timeFormatToOpt
  by_cases hs : s = ""
  · subst hs
    exact if_pos (Or.inr isTimeFormat_empty)
  · exact if_pos (Or.inl hs)

/-- C1: for every parameter mapping and every input string, `sinceToOpt`,
`untilToOpt` and `timeFormatToOpt` return the mapping with the key never
added: the emptiness test and the shape test are joined by OR and the empty
string fails the shape check, so no input ever writes the key. -/
theorem c1_since_until_never_added (opt : StrMap) (key s : String) :
    timeFormatToOpt opt key s = opt ∧
    sinceToOpt opt s = opt ∧
    untilToOpt opt s = opt :=
  ⟨timeFormatToOpt_eq_self opt key s,
   timeFormatToOpt_eq_self opt "since" s,
   timeFormatToOpt_eq_self opt "until" s⟩

/-- C3: `isTimeFormat s` is true iff splitting `s` on `-` yields exactly
three pieces each accepted by `strconv.Atoi`; no calendar validity is
checked, so `"99-99-99"` passes, while a different number of segments or a
non-integer segment fails. -/
theorem c3_isTimeFormat_shape (s : String) :
    (isTimeFormat s = true ↔
      (splitDash s).length = 3 ∧ ∀ p ∈ splitDash s, atoiOk p = true) ∧
    isTimeFormat "99-99-99" = true ∧
    isTimeFormat "2017-05-01" = true ∧
    isTimeFormat "99-1-3" = true ∧
    isTimeFormat "2017-05" = false ∧
    isTimeFormat "2017-05-01-00" = false ∧
    isTimeFormat "2017-ab-01" = false := by
  refine ⟨?_, by decide, by decide, by decide, by decide, by decide, by decide⟩
  unfold isTimeFormat
  by_cases h : (splitDash s).length = 3
  · rw [if_neg (by simp [h])]
    simp [List.all_eq_true, h]
  · rw [if_pos h]
    simp [h]

/-- C4: `sinceIDtoOpt` and `maxIDtoOpt` leave the mapping unchanged when
the id is below 1, and otherwise set `since_id` / `max_id` to the decimal
string of the id. -/
theorem c4_id_gating (opt : StrMap) (id : Int) :
    sinceIDtoOpt opt id = (if id < 1 then opt else mapInsert opt "since_id" (toString id)) ∧
    maxIDtoOpt opt id = (if id < 1 then opt else mapInsert opt "max_id" (toString id)) ∧
    sinceIDtoOpt emptyMap 0 = emptyMap ∧
    maxIDtoOpt emptyMap (-5) = emptyMap ∧
    sinceIDtoOpt emptyMap 1 "since_id" = some "1" ∧
    maxIDtoOpt emptyMap 1234567890123 "max_id" = some "1234567890123" := by
  refine ⟨rfl, rfl, rfl, rfl, by decide, by decide⟩

/-- C5: `countToOpt` writes the `count` key verbatim exactly when the raw
string is accepted by `strconv.Atoi`, and returns the mapping unchanged
otherwise (empty and non-numeric input is silently ignored). -/
theorem c5_count_gating (opt : StrMap) (c : String) :
    countToOpt opt c = (if atoiOk c then mapInsert opt "count" c else opt) ∧
    countToOpt emptyMap "abc" = emptyMap ∧
    countToOpt emptyMap "" = emptyMap ∧
    countToOpt emptyMap "20" "count" = some "20" := by
  refine ⟨?_, rfl, rfl, by decide⟩
  unfold countToOpt
  by_cases hc : c = ""
  · subst hc
    rw [if_neg (by simp)]
    rw [if_neg (by decide)]
  · rw [if_pos hc]

/-- Author sub-record of a Tweet (twty.go `Tweet.User`). -/
structure TweetUser where
  name : String
  screenName : String
  followersCount : Int
  profileImageURL : String
deriving DecidableEq, Repr

/-- Place sub-record of a Tweet (twty.go `Tweet.Place`, a nullable pointer). -/
structure TweetPlace where
  id : String
  fullName : String
deriving DecidableEq, Repr

/-- Hashtag entity (twty.go `Tweet.Entities.HashTags`). -/
structure TweetHashTag where
  indices : Int × Int
  text : String
deriving DecidableEq, Repr

/-- User-mention entity (twty.go `Tweet.Entities.UserMentions`). -/
structure TweetMention where
  indices : Int × Int
  screenName : String
deriving DecidableEq, Repr

/-- URL entity (twty.go `Tweet.Entities.Urls`). -/
structure TweetURL where
  indices : Int × Int
  url : String
deriving DecidableEq, Repr

/-- Entity sub-records of a Tweet (twty.go `Tweet.Entities`). -/
structure TweetEntities where
  hashTags : List TweetHashTag
  userMentions : List TweetMention
  urls : List TweetURL
deriving DecidableEq, Repr

/-- twty.go `Tweet`: a status object as decoded from the platform JSON. -/
structure Tweet where
  text : String
  identifier : String
  source : String
  createdAt : String
  user : TweetUser
  place : Option TweetPlace
  entities : TweetEntities
deriving DecidableEq, Repr

/-- One character step of twty.go's package-level `replacer`
(`strings.NewReplacer("\r", "", "\n", " ", "\t", " ")`): carriage return
removed, newline and tab replaced by a space. -/
def replaceChar (c : Char) : Option Char :=
  if c = '\r' then none
  else if c = '\n' then some ' '
  else if c = '\t' then some ' '
  else some c

/-- twty.go `replacer.Replace`: all three patterns are single characters,
so the replacement is character-wise. -/
def replacerReplace (s : String) : String :=
  String.mk (List.filterMap replaceChar s.data)

/-- twty.go `toLocalTime`: parse the timestamp with the fixed layout
`"Mon Jan 02 15:04:05 -0700 2006"` and reformat it in the local timezone;
an unparsable timestamp is returned unchanged.  `time.Parse` and
`Time.Local().Format` are the platform's time library, passed in as
`parse` and `formatLocal`. -/
def toLocalTime {α : Type} (parse : String → Option α) (formatLocal : α → String)
    (timeStr : String) : String :=
  match parse timeStr with
  | none => timeStr
  | some timeValue => formatLocal timeValue

/-- The five lines the verbose branch of twty.go `showTweets` prints for
one tweet. -/
def verboseLines {α : Type} (unescape : String → String) (parse : String → Option α)
    (formatLocal : α → String) (t : Tweet) : List String :=
  [t.user.screenName ++ ": " ++ t.user.name,
   "  " ++ unescape (replacerReplace t.text),
   "  " ++ t.identifier,
   "  " ++ toLocalTime parse formatLocal t.createdAt,
   ""]

/-- The single line the plain branch of twty.go `showTweets` prints for one
tweet (`fmt.Print(user)`, `fmt.Print(": ")`, `fmt.Println(unescaped)`). -/
def plainLine (unescape : String → String) (t : Tweet) : String :=
  t.user.screenName ++ ": " ++ unescape t.text

/-- twty.go `showTweets` as the list of lines written to standard output.
The JSON branch iterates the slice forward (`for _, tweet := range
tweets`), one encoded tweet per line; the verbose and plain branches
iterate backward (`for i := len(tweets) - 1; i >= 0; i--`).
`json.Encoder.Encode` is passed in as `encode`. -/
def showTweets {α : Type} (encode : Tweet → String) (unescape : String → String)
    (parse : String → Option α) (formatLocal : α → String)
    (tweets : List Tweet) (asjson verbose : Bool) : List String :=
  if asjson then tweets.map encode
  else if verbose then
    ((tweets.reverse).map (verboseLines unescape parse formatLocal)).flatten
  else (tweets.reverse).map (plainLine unescape)

/-- A sample tweet used at concrete inputs. -/
def tweetA : Tweet :=
  ⟨"first received", "1", "", "", ⟨"Alice A", "alice", 0, ""⟩, none, ⟨[], [], []⟩⟩

/-- A second sample tweet used at concrete inputs. -/
def tweetB : Tweet :=
  ⟨"second received", "2", "", "", ⟨"Bob B", "bob", 0, ""⟩, none, ⟨[], [], []⟩⟩

/-- C2 counterexample: in structured/JSON mode `showTweets` emits the
tweets in arrival order, not reversed: on two tweets with identifiers
`"1"` then `"2"`, encoding each tweet by its identifier, the emitted lines
differ from the claimed reverse-order rendering. -/
theorem c2_json_order_counterexample :
    ¬ (showTweets Tweet.identifier (fun s => s) (fun _ => (none : Option Unit))
        (fun _ => "") [tweetA, tweetB] true false
      = List.map Tweet.identifier (List.reverse [tweetA, tweetB])) := by
  decide

/-- C2 amended: `showTweets` emits the tweets in reverse of arrival order
in the verbose and plain modes, but in arrival order (first received
printed first) in structured/JSON mode. -/
theorem c2_render_order {α : Type} (encode : Tweet → String) (unescape : String → String)
    (parse : String → Option α) (formatLocal : α → String)
    (tweets : List Tweet) (verbose : Bool) :
    showTweets encode unescape parse formatLocal tweets true verbose
      = List.map encode tweets ∧
    showTweets encode unescape parse formatLocal tweets false true
      = (List.map (verboseLines unescape parse formatLocal) (List.reverse tweets)).flatten ∧
    showTweets encode unescape parse formatLocal tweets false false
      = List.map (plainLine unescape) (List.reverse tweets) := by
  refine ⟨rfl, rfl, rfl⟩

/-- C8: for every tweet, verbose rendering prints exactly five lines: the
`screen_name: display_name` header, the indented body (carriage returns
removed, newlines and tabs each replaced by one space, then HTML entities
unescaped), the indented identifier, the indented timestamp reformatted in
the local timezone when it parses in the fixed layout and passed through
unchanged when it does not, and a blank separator line. -/
theorem c8_verbose_rendering {α : Type} (encode : Tweet → String)
    (unescape : String → String) (parse : String → Option α)
    (formatLocal : α → String) (t : Tweet) :
    showTweets encode unescape parse formatLocal [t] false true =
      [t.user.screenName ++ ": " ++ t.user.name,
       "  " ++ unescape (replacerReplace t.text),
       "  " ++ t.identifier,
       "  " ++ toLocalTime parse formatLocal t.createdAt,
       ""] ∧
    (replacerReplace t.text).data = List.filterMap replaceChar t.text.data ∧
    replaceChar '\r' = none ∧
    replaceChar '\n' = some ' ' ∧
    replaceChar '\t' = some ' ' ∧
    (∀ c : Char, c ≠ '\r' → c ≠ '\n' → c ≠ '\t' → replaceChar c = some c) ∧
    (∀ s, parse s = none → toLocalTime parse formatLocal s = s) ∧
    (∀ s a, parse s = some a → toLocalTime parse formatLocal s = formatLocal a) := by
  refine ⟨?_, rfl, rfl, rfl, rfl, ?_, ?_, ?_⟩
  · simp [showTweets, verboseLines]
  · intro c h1 h2 h3
    simp [replaceChar, h1, h2, h3]
  · intro s h
    simp [toLocalTime, h]
  · intro s a h
    simp [toLocalTime, h]

/-- What twty.go `getConfig` decides to do with the profile name: load a
settings file, or (for `?`) list the existing profiles and terminate the
process with the recorded exit status. -/
inductive ConfigAction where
  | load : String → ConfigAction
  | listProfiles : Nat → ConfigAction
deriving DecidableEq, Repr

/-- The profile-name branch of twty.go `getConfig`: empty profile →
`settings.json`; `?` → list profiles and `os.Exit(0)`; any other name →
`settings-<profile>.json`. -/
def resolveProfile (profile : String) : ConfigAction :=
  if profile = "" then ConfigAction.load "settings.json"
  else if profile = "?" then ConfigAction.listProfiles 0
  else ConfigAction.load ("settings-" ++ profile ++ ".json")

/-- The name printed for one glob match in the `?` branch of `getConfig`:
`name[8:len(name)-5]` on the base name (strip `settings` and `.json`),
then `strings.TrimLeft(name, "-")`. -/
def profileDisplayName (base : String) : String :=
  let middle := (base.data.drop 8).take (base.data.length - 13)
  String.mk (middle.dropWhile (fun c => c = '-'))

/-- The lines the `?` branch prints, one per file matching the
`settings*.json` glob (given here by base name). -/
def listProfileNames (bases : List String) : List String :=
  bases.map profileDisplayName

/-- Outcome of `ioutil.ReadFile` on the settings file: the file does not
exist, was read, or failed with another error. -/
inductive ReadResult where
  | notExist : ReadResult
  | found : String → ReadResult
  | failed : String → ReadResult

/-- The configuration twty.go `getConfig` seeds when no settings file
exists yet: exactly the two built-in client credentials. -/
def seedConfig : StrMap :=
  mapInsert (mapInsert emptyMap "ClientToken" "MbartJkKCrSegn45xK9XLw")
    "ClientSecret" "1nI3dHFtK9UY1kL6UEYWk6r2lFEcNHWhk7MtXe7eo"

/-- The load step of twty.go `getConfig`: a missing file seeds the default
client credentials; an existing file is parsed by `json.Unmarshal`
(passed in as `unmarshal`), a parse failure or any other read error is
returned as an error. -/
def getConfigLoad (unmarshal : String → Option StrMap) : ReadResult → Except String StrMap
  | ReadResult.notExist => Except.ok seedConfig
  | ReadResult.found b =>
    match unmarshal b with
    | some config => Except.ok config
    | none => Except.error "could not unmarshal"
  | ReadResult.failed e => Except.error e

/-- C6: when the settings file does not exist, `getConfig` produces a
mapping holding exactly `ClientToken` and `ClientSecret` with the fixed
literal credential pair, and in particular no `AccessToken` or
`AccessSecret` key. -/
theorem c6_seeded_defaults (unmarshal : String → Option StrMap) (k : String)
    (h1 : k ≠ "ClientToken") (h2 : k ≠ "ClientSecret") :
    getConfigLoad unmarshal ReadResult.notExist = Except.ok seedConfig ∧
    seedConfig "ClientToken" = some "MbartJkKCrSegn45xK9XLw" ∧
    seedConfig "ClientSecret" = some "1nI3dHFtK9UY1kL6UEYWk6r2lFEcNHWhk7MtXe7eo" ∧
    seedConfig k = none := by
  refine ⟨rfl, by decide, by decide, ?_⟩
  simp [seedConfig, mapInsert, emptyMap, h1, h2]

/-- C6 witness: at the key `AccessToken` the seeded configuration holds
nothing, and the missing-file load returns exactly the seeded map. -/
theorem c6_seeded_defaults_witness :
    getConfigLoad (fun _ => none) ReadResult.notExist = Except.ok seedConfig ∧
    seedConfig "ClientToken" = some "MbartJkKCrSegn45xK9XLw" ∧
    seedConfig "ClientSecret" = some "1nI3dHFtK9UY1kL6UEYWk6r2lFEcNHWhk7MtXe7eo" ∧
    seedConfig "AccessToken" = none :=
  c6_seeded_defaults (fun _ => none) "AccessToken" (by decide) (by decide)

/-- C7: the empty profile name resolves to `settings.json`; any profile
name other than empty and `?` resolves to `settings-<profile>.json`; the
profile name `?` performs no load and instead lists, for each file
matching `settings*.json`, the base name stripped of the `settings`
prefix, the `.json` suffix and leading hyphens, then exits with status 0. -/
theorem c7_profile_resolution (p : String) (h1 : p ≠ "") (h2 : p ≠ "?") :
    resolveProfile "" = ConfigAction.load "settings.json" ∧
    resolveProfile p = ConfigAction.load ("settings-" ++ p ++ ".json") ∧
    resolveProfile "?" = ConfigAction.listProfiles 0 ∧
    listProfileNames ["settings.json", "settings-work.json", "settings--x.json"]
      = ["", "work", "x"] := by
  refine ⟨rfl, ?_, rfl, by decide⟩
  unfold resolveProfile
  rw [if_neg h1, if_neg h2]

/-- C7 witness: the profile name `work` resolves to `settings-work.json`. -/
theorem c7_profile_resolution_witness :
    resolveProfile "" = ConfigAction.load "settings.json" ∧
    resolveProfile "work" = ConfigAction.load ("settings-" ++ "work" ++ ".json") ∧
    resolveProfile "?" = ConfigAction.listProfiles 0 ∧
    listProfileNames ["settings.json", "settings-work.json", "settings--x.json"]
      = ["", "work", "x"] :=
  c7_profile_resolution "work" (by decide) (by decide)

/-- An OAuth token/secret pair (`oauth.Credentials`). -/
structure Credentials where
  token : String
  secret : String
deriving DecidableEq, Repr

/-- What twty.go `getAccessToken` hands back: the credential, the
`authorized` flag (true only after a fresh handshake), the configuration
map afterwards, and whether the temporary-credential request / PIN
exchange was performed at all. -/
structure AccessTokenResult where
  cred : Credentials
  authorized : Bool
  config : StrMap
  didHandshake : Bool

/-- twty.go `getAccessToken`.  The comma-ok reads of `AccessToken` and
`AccessSecret` test key presence; when both keys are present the stored
pair is returned with `authorized = false` and no network activity.
Otherwise the temporary-credential request and the PIN exchange — network
and terminal interactions — are modelled by the supplied `tempCred` and
`pinExchange` outcomes, and a successful handshake writes the fresh pair
into the configuration and reports `authorized = true`. -/
def getAccessToken (tempCred pinExchange : Except String Credentials)
    (config : StrMap) : Except String AccessTokenResult :=
  match config "AccessToken", config "AccessSecret" with
  | some accessToken, some accessSecret =>
    Except.ok ⟨⟨accessToken, accessSecret⟩, false, config, false⟩
  | _, _ =>
    match tempCred with
    | Except.error e => Except.error ("cannot request temporary credentials: " ++ e)
    | Except.ok _ =>
      match pinExchange with
      | Except.error e => Except.error ("cannot request temporary credentials: " ++ e)
      | Except.ok tok =>
        Except.ok ⟨tok, true,
          mapInsert (mapInsert config "AccessToken" tok.token) "AccessSecret" tok.secret,
          true⟩

/-- C9: whenever both `AccessToken` and `AccessSecret` keys are present —
even bound to empty strings, since the check tests presence —
`getAccessToken` returns exactly the stored pair with the fresh-authorization
flag false and no error, performs no temporary-credential request or PIN
exchange, and leaves the configuration mapping unmodified. -/
theorem c9_cached_access_token (tempCred pinExchange : Except String Credentials)
    (config : StrMap) (a b : String)
    (hA : config "AccessToken" = some a) (hB : config "AccessSecret" = some b) :
    getAccessToken tempCred pinExchange config
      = Except.ok ⟨⟨a, b⟩, false, config, false⟩ := by
  unfold getAccessToken
  rw [hA, hB]

/-- A configuration whose access keys are present but hold empty strings. -/
def emptyTokenConfig : StrMap :=
  mapInsert (mapInsert emptyMap "AccessToken" "") "AccessSecret" ""

/-- C9 witness: with both access keys stored as empty strings and both
network outcomes set to failures, `getAccessToken` still returns the
stored empty pair, unauthorized, with the configuration untouched. -/
theorem c9_cached_access_token_witness :
    getAccessToken (Except.error "down") (Except.error "down") emptyTokenConfig
      = Except.ok ⟨⟨"", ""⟩, false, emptyTokenConfig, false⟩ :=
  c9_cached_access_token (Except.error "down") (Except.error "down")
    emptyTokenConfig "" "" (by decide) (by decide)

/-- C10: every option builder agrees with the input mapping on every key
other than its single documented key: nothing is removed and no other
key's value changes. -/
theorem c10_builders_frame (opt : StrMap) (c ds : String) (id : Int) (key k : String) :
    (k ≠ "count" → countToOpt opt c k = opt k) ∧
    (k ≠ "since" → sinceToOpt opt ds k = opt k) ∧
    (k ≠ "until" → untilToOpt opt ds k = opt k) ∧
    (k ≠ "since_id" → sinceIDtoOpt opt id k = opt k) ∧
    (k ≠ "max_id" → maxIDtoOpt opt id k = opt k) ∧
    (k ≠ key → timeFormatToOpt opt key ds k = opt k) := by
  refine ⟨?_, ?_, ?_, ?_, ?_, ?_⟩
  · intro h1
    unfold countToOpt
    split
    · split
      · exact mapInsert_other opt "count" c k h1
      · rfl
    · rfl
  · intro _
    rw [sinceToOpt, timeFormatToOpt_eq_self]
  · intro _
    rw [untilToOpt, timeFormatToOpt_eq_self]
  · intro h4
    unfold sinceIDtoOpt idToOpt
    split
    · rfl
    · exact mapInsert_other opt "since_id" (toString id) k h4
  · intro h5
    unfold maxIDtoOpt idToOpt
    split
    · rfl
    · exact mapInsert_other opt "max_id" (toString id) k h5
  · intro _
    rw [timeFormatToOpt_eq_self]

/-- A one-key mapping used to witness the frame property. -/
def queryOnlyMap : StrMap := mapInsert emptyMap "q" "lean"

/-- C10 witness: on the mapping holding only `q`, every builder leaves the
`q` binding exactly as it was. -/
theorem c10_builders_frame_witness :
    countToOpt queryOnlyMap "20" "q" = queryOnlyMap "q" ∧
    sinceToOpt queryOnlyMap "2017-05-01" "q" = queryOnlyMap "q" ∧
    untilToOpt queryOnlyMap "2017-05-01" "q" = queryOnlyMap "q" ∧
    sinceIDtoOpt queryOnlyMap 5 "q" = queryOnlyMap "q" ∧
    maxIDtoOpt queryOnlyMap 5 "q" = queryOnlyMap "q" ∧
    timeFormatToOpt queryOnlyMap "since" "2017-05-01" "q" = queryOnlyMap "q" := by
  have h := c10_builders_frame queryOnlyMap "20" "2017-05-01" 5 "since" "q"
  exact ⟨h.1 (by decide), h.2.1 (by decide), h.2.2.1 (by decide),
    h.2.2.2.1 (by decide), h.2.2.2.2.1 (by decide), h.2.2.2.2.2 (by decide)⟩

end Twty
